import Mathlib

/-!
# front-end-service websocket gateway: shallow embedding

This file embeds the connection/session state machine of the gateway
(`src/ws/index.js`, the file wiring `lobby`, `hall`, `phoenix` and the
websocket server) and proves the testable properties of its specification.

Connections are identified by natural-number handles (handle identity in the
source is object identity of the `ws` object).  The two registries are lists
of entries, mirroring the order-sensitive `get` (first match) and `remove`
(first match) operations.  Every side effect the code performs — closing a
transport, sending to the coordination service ("phoenix"), sending a UI
message to a client, logging a warning — is recorded in an effect trace.
-/

/-- A participant role, assigned by the coordination service. -/
inductive Role where
  | gameMaster
  | player
deriving DecidableEq, Repr

/-- A lobby (PendingRegistry) entry: the tuple `[ws, participantId, sessionId]`
stored by `lobby.add`. -/
structure LEntry where
  ws : Nat
  pid : String
  sid : String
deriving DecidableEq, Repr

/-- A hall (ActiveRegistry) entry: the tuple `[ws, participantId, sessionId, role]`
stored by `hall.add`. -/
structure HEntry where
  ws : Nat
  pid : String
  sid : String
  role : Role
deriving DecidableEq, Repr

/-- Modelled from the spec: the lobby module (`./lobby`) is not among the
source files; §4.1 specifies `lookup(connection?, participantId?, sessionId?)`
as returning the first entry matching the supplied non-null fields, with the
connection alone sufficient for a direct lookup and `participantId+sessionId`
alone sufficient for a lookup by logical identity.  An entry matches when the
supplied connection equals its connection, or when the supplied identity pair
equals its identity pair (this is what makes the check-then-evict of `addToLobby`
find the stale entry of the same identity under a fresh connection). -/
def lmatch (wsQ : Option Nat) (pidQ sidQ : Option String) (e : LEntry) : Bool :=
  (match wsQ with
   | some w => e.ws == w
   | none => false)
  ||
  (match pidQ, sidQ with
   | some p, some s => e.pid == p && e.sid == s
   | _, _ => false)

/-- Modelled from the spec: `lobby.get` returns the first matching entry. -/
def Lobby.get (wsQ : Option Nat) (pidQ sidQ : Option String) (l : List LEntry) :
    Option LEntry :=
  l.find? (lmatch wsQ pidQ sidQ)

/-- Modelled from the spec: `lobby.add` inserts the entry, no uniqueness
pre-check (§4.1). -/
def Lobby.add (ws : Nat) (pid sid : String) (l : List LEntry) : List LEntry :=
  l ++ [⟨ws, pid, sid⟩]

/-- Modelled from the spec: `lobby.remove` deletes the matching entry, a no-op
if absent (§4.1). -/
def Lobby.remove (wsQ : Option Nat) (pidQ sidQ : Option String) (l : List LEntry) :
    List LEntry :=
  l.eraseP (lmatch wsQ pidQ sidQ)

/-- Modelled from the spec: the hall module (`./hall`) is not among the source
files; matching is as for the lobby, on the connection or on the logical
identity `(participantId, sessionId)` — §4.3 evicts "an existing ActiveEntry
[that] matches this identity", identity being the pair of §3.  The `role`
argument the call sites pass is not part of identity matching. -/
def hmatch (wsQ : Option Nat) (pidQ sidQ : Option String) (e : HEntry) : Bool :=
  (match wsQ with
   | some w => e.ws == w
   | none => false)
  ||
  (match pidQ, sidQ with
   | some p, some s => e.pid == p && e.sid == s
   | _, _ => false)

/-- Modelled from the spec: `hall.get` returns the first matching entry. -/
def Hall.get (wsQ : Option Nat) (pidQ sidQ : Option String) (_roleQ : Option Role)
    (h : List HEntry) : Option HEntry :=
  h.find? (hmatch wsQ pidQ sidQ)

/-- Modelled from the spec: `hall.add` inserts the entry. -/
def Hall.add (ws : Nat) (pid sid : String) (role : Role) (h : List HEntry) :
    List HEntry :=
  h ++ [⟨ws, pid, sid, role⟩]

/-- Modelled from the spec: `hall.remove` deletes the matching entry, a no-op
if absent. -/
def Hall.remove (wsQ : Option Nat) (pidQ sidQ : Option String) (_roleQ : Option Role)
    (h : List HEntry) : List HEntry :=
  h.eraseP (hmatch wsQ pidQ sidQ)

/-- Modelled from the spec: `hall.getMasters(sessionId)` — the §4.2 view
`listBySessionAndRole(sessionId, game-master)`. -/
def Hall.getMasters (sid : String) (h : List HEntry) : List HEntry :=
  h.filter (fun e => e.sid == sid && e.role == Role.gameMaster)

/-- Modelled from the spec: `hall.getPlayers(sessionId)` — the §4.2 view
`listBySessionAndRole(sessionId, player)`. -/
def Hall.getPlayers (sid : String) (h : List HEntry) : List HEntry :=
  h.filter (fun e => e.sid == sid && e.role == Role.player)

/-- A registered `close` listener (registered by `ws.once` for the close event): the closure either
comes from `addToLobby` or from `addToHall`, capturing the `participantId` and
`sessionId` of the admission. -/
inductive CloseH where
  | lobbyH (pid sid : String)
  | hallH (pid sid : String)
deriving DecidableEq, Repr

/-- The mutable state of the gateway: the two registries plus, per connection, the
registered `close` listeners (in registration order) and the connections
carrying the persistent `message` listener installed by `addToHall`. -/
structure GState where
  lobby : List LEntry
  hall : List HEntry
  closeHs : List (Nat × CloseH)
  msgHs : List Nat
deriving DecidableEq, Repr

/-- Messages sent to the coordination service via `phoenix.send`
(`stateService.*` constructors of message-factory). -/
inductive Msg where
  | sessionJoin (sid pid : String)
  | sessionLeave (sid pid : String)
  | participantInput (sid pid input : String) (t : Nat)
  | participantCreated (uid : String)
deriving DecidableEq, Repr

/-- UI messages sent to client connections (`ui.*` constructors). -/
inductive UiMsg where
  | participantJoined (sid pid displayName : String)
  | participantLeft (sid pid : String)
  | solutionEvaluated (result errInfo : String) (correct : Bool) (time : Nat)
  | participantSolution (pid : String) (correct : Bool) (time len : Nat)
deriving DecidableEq, Repr

/-- An observable side effect of the gateway. -/
inductive Effect where
  | closeWs (ws code : Nat)
  | phoenixSend (m : Msg)
  | wsSend (ws : Nat) (m : UiMsg)
  | warnLog
deriving DecidableEq, Repr

/-- Source function `clearConnection(ws)`: `ws.removeAllListeners()` — every listener of that
connection is detached. -/
def clearConnection (st : GState) (ws : Nat) : GState :=
  { st with
    closeHs := st.closeHs.filter (fun h => !(h.1 == ws)),
    msgHs := st.msgHs.filter (fun w => !(w == ws)) }

/-- Source function `rejectConnection(ws)`: detach all listeners, then `ws.close(4500)` (a code
telling the client phoenix not to reconnect). -/
def rejectConnection (st : GState) (ws : Nat) : GState × List Effect :=
  (clearConnection st ws, [Effect.closeWs ws 4500])

/-- Source function `sendToGameMasters(sessionId, message)`: one independent `ws.send` per
game-master entry of the session. -/
def sendToGameMasters (st : GState) (sid : String) (m : UiMsg) : List Effect :=
  (Hall.getMasters sid st.hall).map (fun e => Effect.wsSend e.ws m)

/-- Source function `sendToPlayers(sessionId, message)`. -/
def sendToPlayers (st : GState) (sid : String) (m : UiMsg) : List Effect :=
  (Hall.getPlayers sid st.hall).map (fun e => Effect.wsSend e.ws m)

/-- Source function `sendToSession(sessionId, message)`: masters then players. -/
def sendToSession (st : GState) (sid : String) (m : UiMsg) : List Effect :=
  sendToGameMasters st sid m ++ sendToPlayers st sid m

/-- Source function `sendToPlayer(ws, message)`. -/
def sendToPlayer (ws : Nat) (m : UiMsg) : List Effect :=
  [Effect.wsSend ws m]

/-- The transport operation `send` (§6) is synchronous and does not raise; a delivery
failure is a property of the target connection, not of the sender.  Given the
failing connection, the effects actually delivered: `wsSend` effects to the
failing connection are lost, everything else goes through. -/
def delivered (effs : List Effect) (failWs : Nat) : List Effect :=
  effs.filter (fun e =>
    match e with
    | Effect.wsSend w _ => !(w == failWs)
    | _ => true)

/-- The recognized client message kind `MESSAGE_NAME.solution`. -/
def MESSAGE_NAME_solution : String := "solution"

/-- A parsed client message (`message.name`, `message.input`). -/
structure ClientMsg where
  name : String
  input : String
deriving DecidableEq, Repr

/-- Source function `handleClientMessage(ws, message)`: resolve the connection in the hall
(`hall.get(ws)`, connection only); unknown client — warn and discard; the
`solution` kind sends `stateService.participantInput(sessionId, participantId,
message.input, Date.now())`; any other kind — warn.  `now` is the value of
`Date.now()` at receipt. -/
def handleClientMessage (st : GState) (ws : Nat) (msg : ClientMsg) (now : Nat) :
    List Effect :=
  match Hall.get (some ws) none none none st.hall with
  | none => [Effect.warnLog]
  | some participant =>
      if msg.name == MESSAGE_NAME_solution then
        [Effect.phoenixSend
          (Msg.participantInput participant.sid participant.pid msg.input now)]
      else
        [Effect.warnLog]

/-- Source function `removeFromLobby(ws, participantId, sessionId)`: `lobby.remove` then
`rejectConnection(ws)`.  The identity arguments are optional because the close
listener calls it with the connection only. -/
def removeFromLobby (st : GState) (ws : Nat) (pidQ sidQ : Option String) :
    GState × List Effect :=
  rejectConnection { st with lobby := Lobby.remove (some ws) pidQ sidQ st.lobby } ws

/-- Source function `addToLobby(ws, participantId, sessionId)`: check-then-evict (an existing
match is removed and force-closed, with no session-state notification), then
`lobby.add` and a one-shot `close` listener capturing `(participantId,
sessionId)`. -/
def addToLobby (st : GState) (ws : Nat) (pid sid : String) : GState × List Effect :=
  let afterEvict :=
    match Lobby.get (some ws) (some pid) (some sid) st.lobby with
    | some participant =>
        removeFromLobby st participant.ws (some participant.pid) (some participant.sid)
    | none => (st, [])
  let st1 := afterEvict.1
  ({ st1 with
      lobby := Lobby.add ws pid sid st1.lobby,
      closeHs := st1.closeHs ++ [(ws, CloseH.lobbyH pid sid)] },
   afterEvict.2)

/-- Source function `removeFromHall(ws, participantId, sessionId, role)`: `hall.remove` then
`rejectConnection(ws)`. -/
def removeFromHall (st : GState) (ws : Nat) (pidQ sidQ : Option String)
    (roleQ : Option Role) : GState × List Effect :=
  rejectConnection { st with hall := Hall.remove (some ws) pidQ sidQ roleQ st.hall } ws

/-- Source function `addToHall(ws, participantId, sessionId, role)`: check-then-evict as in the
lobby, then `hall.add`, a one-shot `close` listener capturing `(participantId,
sessionId)`, and the persistent `message` listener forwarding to
`handleClientMessage`. -/
def addToHall (st : GState) (ws : Nat) (pid sid : String) (role : Role) :
    GState × List Effect :=
  let afterEvict :=
    match Hall.get (some ws) (some pid) (some sid) (some role) st.hall with
    | some participant =>
        removeFromHall st participant.ws (some participant.pid) (some participant.sid)
          (some participant.role)
    | none => (st, [])
  let st1 := afterEvict.1
  ({ st1 with
      hall := Hall.add ws pid sid role st1.hall,
      closeHs := st1.closeHs ++ [(ws, CloseH.hallH pid sid)],
      msgHs := st1.msgHs ++ [ws] },
   afterEvict.2)

/-- A display profile; only `displayName` is consumed here. -/
structure Profile where
  displayName : String
deriving DecidableEq, Repr

/-- Constant `DEFAULT_PROFILE`. -/
def DEFAULT_PROFILE : Profile := ⟨"Unknown"⟩

/-- The behavior of the external `loadProfiles` collaborator on one call: it
may reject, resolve with a non-array (or falsy) value, or resolve with an
array whose elements are profile-or-null. -/
inductive LoadResult where
  | rejected
  | resolvedNonArray
  | resolvedArray (profiles : List (Option Profile))
deriving DecidableEq, Repr

/-- The `then` step of `getProfiles`: a non-array result raises
(`loadProfiles returned nothing`); an array is mapped element-wise,
`profile || DEFAULT_PROFILE`.  A rejection of the collaborator propagates
past `then`. -/
def getProfilesThen (r : LoadResult) : Except Unit (List Profile) :=
  match r with
  | LoadResult.rejected => Except.error ()
  | LoadResult.resolvedNonArray => Except.error ()
  | LoadResult.resolvedArray ps =>
      Except.ok (ps.map (fun p => p.getD DEFAULT_PROFILE))

/-- Source function `getProfiles(participantIds)`: the `catch` turns any failure into
`Array(participantIds.length).fill(DEFAULT_PROFILE)` (after a warning), so the
returned promise always resolves with an array. -/
def getProfiles (participantIds : List String) (r : LoadResult) : List Profile :=
  match getProfilesThen r with
  | Except.error _ => List.replicate participantIds.length DEFAULT_PROFILE
  | Except.ok ps => ps

/-- Source function `participantIdentified(participantId, sessionId, role)`: look up the lobby
entry by identity; unknown — warn and discard.  Otherwise remove it from the
lobby, detach the listeners of the connection, admit it to the hall with the given
role, then resolve the profile and broadcast `ui.participantJoined` to the
game-masters of the session.  When `getProfiles` resolves with an empty array the
destructured `profile` is `undefined`: the code warns and then raises a
TypeError at `profile.displayName`, so no broadcast is sent. -/
def participantIdentified (st : GState) (pid sid : String) (role : Role)
    (r : LoadResult) : GState × List Effect :=
  match Lobby.get none (some pid) (some sid) st.lobby with
  | none => (st, [Effect.warnLog])
  | some participant =>
      let st1 := { st with
        lobby := Lobby.remove (some participant.ws) (some participant.pid)
          (some participant.sid) st.lobby }
      let st2 := clearConnection st1 participant.ws
      let afterHall := addToHall st2 participant.ws participant.pid participant.sid role
      let st3 := afterHall.1
      let joinEffs :=
        match getProfiles [pid] r with
        | [] => [Effect.warnLog]
        | profile :: _ =>
            sendToGameMasters st3 sid (UiMsg.participantJoined sid pid profile.displayName)
      (st3, afterHall.2 ++ joinEffs)

/-- The `solutionEvaluated` event payload from the coordination service. -/
structure EvalMsg where
  participantId : String
  sessionId : String
  result : String
  errInfo : String
  correct : Bool
  time : Nat
  length : Nat
deriving DecidableEq, Repr

/-- Source function `solutionEvaluated(message)`: look up the hall entry by identity; unknown —
warn and discard.  Otherwise send the detailed result to that participant and
the summary to the game-masters of the session. -/
def solutionEvaluated (st : GState) (m : EvalMsg) : List Effect :=
  match Hall.get none (some m.participantId) (some m.sessionId) none st.hall with
  | none => [Effect.warnLog]
  | some participant =>
      sendToPlayer participant.ws
        (UiMsg.solutionEvaluated m.result m.errInfo m.correct m.time)
      ++ sendToGameMasters st m.sessionId
        (UiMsg.participantSolution m.participantId m.correct m.time m.length)

/-- Source function `verifyAuth(ws)`: resolves with `[uid, sessionId]` when both cookies are
present and truthy (an empty string is falsy in JavaScript), rejects
otherwise. -/
def verifyAuth (uid sessionId : Option String) : Option (String × String) :=
  match uid, sessionId with
  | some u, some s => if u != "" && s != "" then some (u, s) else none
  | _, _ => none

/-- Source function `processNewConnection(ws)`: on successful authentication, `addToLobby` then
`phoenix.send(stateService.sessionJoin(...))`.  On rejection the `catch`
callback parameter `error` shadows the imported `error` logger, so
the logging call invokes the rejection reason (`undefined`) as a
function: a TypeError is raised before `rejectConnection(ws)` is reached.  The
Boolean in the result records that raised TypeError (no effect is emitted on
that path). -/
def processNewConnection (st : GState) (ws : Nat) (uid sessionId : Option String) :
    GState × List Effect × Bool :=
  match verifyAuth uid sessionId with
  | some (p, s) =>
      let afterAdd := addToLobby st ws p s
      (afterAdd.1, afterAdd.2 ++ [Effect.phoenixSend (Msg.sessionJoin s p)], false)
  | none => (st, [], true)

/-- Run one registered `close` listener of connection `ws`.  The lobby listener
calls `removeFromLobby(ws)` (connection only) and notifies
`stateService.sessionLeave`; the hall listener calls `removeFromHall(ws)`,
notifies `sessionLeave` and broadcasts `ui.participantLeft` to the
game-masters of the session (against the registry state after the removal). -/
def runCloseH (st : GState) (ws : Nat) (h : CloseH) : GState × List Effect :=
  match h with
  | CloseH.lobbyH pid sid =>
      let afterRemove := removeFromLobby st ws none none
      (afterRemove.1,
       afterRemove.2 ++ [Effect.phoenixSend (Msg.sessionLeave sid pid)])
  | CloseH.hallH pid sid =>
      let afterRemove := removeFromHall st ws none none none
      (afterRemove.1,
       afterRemove.2 ++ [Effect.phoenixSend (Msg.sessionLeave sid pid)]
         ++ sendToGameMasters afterRemove.1 sid (UiMsg.participantLeft sid pid))

/-- The transport close event on connection `ws`: the emitter snapshots the
registered `close` listeners of `ws`, removes them (they are one-shot), and
runs each in registration order. -/
def closeEvent (st : GState) (ws : Nat) : GState × List Effect :=
  let snapshot := (st.closeHs.filter (fun h => h.1 == ws)).map Prod.snd
  let st0 := { st with closeHs := st.closeHs.filter (fun h => !(h.1 == ws)) }
  snapshot.foldl
    (fun acc h =>
      let step := runCloseH acc.1 ws h
      (step.1, acc.2 ++ step.2))
    (st0, [])

/-! ## Effect classifiers -/

/-- True for the coordination-service leave notification. -/
def isSessionLeave : Effect → Bool
  | Effect.phoenixSend (Msg.sessionLeave _ _) => true
  | _ => false

/-- True for a participant-left UI send. -/
def isPartLeft : Effect → Bool
  | Effect.wsSend _ (UiMsg.participantLeft _ _) => true
  | _ => false

/-- True for a participant-joined UI send. -/
def isPartJoined : Effect → Bool
  | Effect.wsSend _ (UiMsg.participantJoined _ _ _) => true
  | _ => false

/-- True for a leave notification of either kind (coordination-service
session-leave or participant-left broadcast). -/
def isLeaveNotice (e : Effect) : Bool :=
  isSessionLeave e || isPartLeft e

/-! ## Theorems -/

/-- C6: for every connection that has been evicted (its listeners detached via
forced eviction), a subsequent close of that connection produces no registry
mutation and no notification: the close event on the post-eviction state
returns that state unchanged and an empty effect trace. -/
theorem evictedClose_noop (st : GState) (ws : Nat) :
    closeEvent (rejectConnection st ws).1 ws = ((rejectConnection st ws).1, []) := by
  simp [closeEvent, rejectConnection, clearConnection, List.filter_filter]

/-- C9: every forced close — eviction, lobby/hall removal, authentication
rejection — goes through `rejectConnection`: the listeners of the connection
are detached (no close or message listener of it survives) and the transport
is closed with the single code 4500, so no caller can be distinguished by the
close code. -/
theorem forcedClose_detachThenClose4500 (st : GState) (ws : Nat)
    (pidQ sidQ : Option String) (roleQ : Option Role) :
    rejectConnection st ws = (clearConnection st ws, [Effect.closeWs ws 4500]) ∧
    removeFromLobby st ws pidQ sidQ =
      (clearConnection { st with lobby := Lobby.remove (some ws) pidQ sidQ st.lobby } ws,
       [Effect.closeWs ws 4500]) ∧
    removeFromHall st ws pidQ sidQ roleQ =
      (clearConnection { st with hall := Hall.remove (some ws) pidQ sidQ roleQ st.hall } ws,
       [Effect.closeWs ws 4500]) ∧
    ((clearConnection st ws).closeHs.all (fun h => !(h.1 == ws)) = true) ∧
    ((clearConnection st ws).msgHs.all (fun w => !(w == ws)) = true) := by
  refine ⟨rfl, rfl, rfl, ?_, ?_⟩
  · simp only [clearConnection, List.all_eq_true]
    intro a ha
    exact (List.mem_filter.mp ha).2
  · simp only [clearConnection, List.all_eq_true]
    intro a ha
    exact (List.mem_filter.mp ha).2

/-- C2 (code bug): on authentication failure the `catch` callback raises a
TypeError (its parameter `error` shadows the imported logger, and the
rejection reason `undefined` is invoked as a function) before
`rejectConnection(ws)` is reached.  At a failing input — cookies absent, or an
empty (falsy) cookie — the state is unchanged (no registry entry is created,
as the claim says) but no close effect is emitted (the claim says the
connection is forcibly closed immediately): the trace is empty and the
crashed flag is set. -/
theorem authRejection_raises_before_close (st : GState) (ws : Nat) :
    verifyAuth none none = none ∧
    verifyAuth (some "") (some "abc") = none ∧
    processNewConnection st ws none none = (st, [], true) ∧
    processNewConnection st ws (some "") (some "abc") = (st, [], true) :=
  ⟨rfl, rfl, rfl, rfl⟩

/-- C10: `getProfiles` always produces an array for every collaborator
behavior: a rejection or a non-array result is replaced by a default profile
per requested identifier; an array result is kept at its own length with
per-element default substitution only for the positions present, so a shorter
array stays shorter. -/
theorem getProfiles_total_shortArrayKept (ids : List String) (ps : List (Option Profile)) :
    getProfiles ids LoadResult.rejected = List.replicate ids.length DEFAULT_PROFILE ∧
    getProfiles ids LoadResult.resolvedNonArray =
      List.replicate ids.length DEFAULT_PROFILE ∧
    getProfiles ids (LoadResult.resolvedArray ps) =
      ps.map (fun p => p.getD DEFAULT_PROFILE) ∧
    (getProfiles ids (LoadResult.resolvedArray ps)).length = ps.length := by
  refine ⟨rfl, rfl, rfl, ?_⟩
  simp [getProfiles, getProfilesThen]

/-- C8: a recognized solution-input message from a connection with an active
hall entry produces exactly one coordination-service request, parameterized by
the sessionId and participantId of that entry, the payload of the message, and
the server timestamp at receipt. -/
theorem solutionInput_singleRequest (st : GState) (ws : Nat) (input : String)
    (now : Nat) (p : HEntry)
    (h : Hall.get (some ws) none none none st.hall = some p) :
    handleClientMessage st ws ⟨MESSAGE_NAME_solution, input⟩ now =
      [Effect.phoenixSend (Msg.participantInput p.sid p.pid input now)] := by
  simp [handleClientMessage, h]

/-- Witness for C8 at a concrete state. -/
theorem solutionInput_singleRequest_witness :
    handleClientMessage ⟨[], [⟨1, "p1", "s1", Role.player⟩], [], []⟩ 1
        ⟨MESSAGE_NAME_solution, "xyz"⟩ 42 =
      [Effect.phoenixSend (Msg.participantInput "s1" "p1" "xyz" 42)] :=
  solutionInput_singleRequest ⟨[], [⟨1, "p1", "s1", Role.player⟩], [], []⟩ 1 "xyz" 42
    ⟨1, "p1", "s1", Role.player⟩ (by decide)

/-- C7: an inbound message or event referencing an identity absent from the
expected registry — a client message from a connection with no hall entry, a
role assignment for an identity with no lobby entry, an evaluation result for
an identity with no hall entry — is logged as a warning and discarded: no
state change, no outbound send, no crash. -/
theorem unknownIdentity_warnDiscard (st : GState) (ws : Nat) (msg : ClientMsg)
    (now : Nat) (pid sid : String) (role : Role) (r : LoadResult) (m : EvalMsg)
    (h1 : Hall.get (some ws) none none none st.hall = none)
    (h2 : Lobby.get none (some pid) (some sid) st.lobby = none)
    (h3 : Hall.get none (some m.participantId) (some m.sessionId) none st.hall = none) :
    handleClientMessage st ws msg now = [Effect.warnLog] ∧
    participantIdentified st pid sid role r = (st, [Effect.warnLog]) ∧
    solutionEvaluated st m = [Effect.warnLog] := by
  refine ⟨?_, ?_, ?_⟩
  · simp [handleClientMessage, h1]
  · simp [participantIdentified, h2]
  · simp [solutionEvaluated, h3]

/-- Witness for C7 on the empty registries. -/
theorem unknownIdentity_warnDiscard_witness :
    handleClientMessage ⟨[], [], [], []⟩ 1 ⟨"solution", "x"⟩ 0 = [Effect.warnLog] ∧
    participantIdentified ⟨[], [], [], []⟩ "p1" "s1" Role.player LoadResult.rejected =
      (⟨[], [], [], []⟩, [Effect.warnLog]) ∧
    solutionEvaluated ⟨[], [], [], []⟩ ⟨"p1", "s1", "r", "e", true, 3, 5⟩ =
      [Effect.warnLog] :=
  unknownIdentity_warnDiscard ⟨[], [], [], []⟩ 1 ⟨"solution", "x"⟩ 0 "p1" "s1"
    Role.player LoadResult.rejected ⟨"p1", "s1", "r", "e", true, 3, 5⟩
    (by decide) (by decide) (by decide)

/-- C3: each fan-out helper iterates its registry view and sends independently
to each connection; with one failing connection, every other connection of the
view still has its send delivered — for game-masters, players, and the whole
session. -/
theorem fanout_failureIsolated (st : GState) (sid : String) (m : UiMsg) (bad : Nat)
    (em ep es : HEntry)
    (hm : em ∈ Hall.getMasters sid st.hall) (hmb : em.ws ≠ bad)
    (hp : ep ∈ Hall.getPlayers sid st.hall) (hpb : ep.ws ≠ bad)
    (hs : es ∈ st.hall) (hss : es.sid = sid) (hsb : es.ws ≠ bad) :
    Effect.wsSend em.ws m ∈ delivered (sendToGameMasters st sid m) bad ∧
    Effect.wsSend ep.ws m ∈ delivered (sendToPlayers st sid m) bad ∧
    Effect.wsSend es.ws m ∈ delivered (sendToSession st sid m) bad := by
  refine ⟨?_, ?_, ?_⟩
  · simp only [delivered, sendToGameMasters, List.mem_filter, List.mem_map]
    exact ⟨⟨em, hm, rfl⟩, by simp [hmb]⟩
  · simp only [delivered, sendToPlayers, List.mem_filter, List.mem_map]
    exact ⟨⟨ep, hp, rfl⟩, by simp [hpb]⟩
  · simp only [delivered, sendToSession, List.filter_append, List.mem_append]
    cases hr : es.role
    · left
      simp only [delivered, sendToGameMasters, List.mem_filter, List.mem_map]
      refine ⟨⟨es, ?_, rfl⟩, by simp [hsb]⟩
      simp [Hall.getMasters, List.mem_filter, hs, hss, hr]
    · right
      simp only [delivered, sendToPlayers, List.mem_filter, List.mem_map]
      refine ⟨⟨es, ?_, rfl⟩, by simp [hsb]⟩
      simp [Hall.getPlayers, List.mem_filter, hs, hss, hr]

/-- Witness for C3: three hall members of one session, connection 3 failing. -/
theorem fanout_failureIsolated_witness :
    Effect.wsSend 1 (UiMsg.participantLeft "s1" "p9") ∈
      delivered (sendToGameMasters
        ⟨[], [⟨1, "gm", "s1", Role.gameMaster⟩, ⟨2, "pl", "s1", Role.player⟩,
              ⟨3, "gm2", "s1", Role.gameMaster⟩], [], []⟩
        "s1" (UiMsg.participantLeft "s1" "p9")) 3 ∧
    Effect.wsSend 2 (UiMsg.participantLeft "s1" "p9") ∈
      delivered (sendToPlayers
        ⟨[], [⟨1, "gm", "s1", Role.gameMaster⟩, ⟨2, "pl", "s1", Role.player⟩,
              ⟨3, "gm2", "s1", Role.gameMaster⟩], [], []⟩
        "s1" (UiMsg.participantLeft "s1" "p9")) 3 ∧
    Effect.wsSend 1 (UiMsg.participantLeft "s1" "p9") ∈
      delivered (sendToSession
        ⟨[], [⟨1, "gm", "s1", Role.gameMaster⟩, ⟨2, "pl", "s1", Role.player⟩,
              ⟨3, "gm2", "s1", Role.gameMaster⟩], [], []⟩
        "s1" (UiMsg.participantLeft "s1" "p9")) 3 :=
  fanout_failureIsolated
    ⟨[], [⟨1, "gm", "s1", Role.gameMaster⟩, ⟨2, "pl", "s1", Role.player⟩,
          ⟨3, "gm2", "s1", Role.gameMaster⟩], [], []⟩
    "s1" (UiMsg.participantLeft "s1" "p9") 3
    ⟨1, "gm", "s1", Role.gameMaster⟩ ⟨2, "pl", "s1", Role.player⟩
    ⟨1, "gm", "s1", Role.gameMaster⟩
    (by decide) (by decide) (by decide) (by decide) (by decide) (by decide) (by decide)

/-- Helper: when every element satisfying `p` is the element `e` and `e` is in
the list satisfying `p`, the first match is `e`. -/
theorem find_of_unique {α : Type} {p : α → Bool} {e : α} :
    ∀ {l : List α}, e ∈ l → p e = true → (∀ x ∈ l, p x = true → x = e) →
      l.find? p = some e := by
  intro l
  induction l with
  | nil => intro h _ _; cases h
  | cons x xs ih =>
    intro hmem hpe huniq
    by_cases hx : p x = true
    · have hxe : x = e := huniq x (List.mem_cons_self x xs) hx
      subst hxe
      simp [List.find?_cons_of_pos, hx]
    · rw [List.find?_cons_of_neg xs hx]
      have hex : e ∈ xs := by
        rcases List.mem_cons.mp hmem with h | h
        · exact absurd hpe (by rw [h]; exact hx)
        · exact h
      exact ih hex hpe (fun y hy hpy => huniq y (List.mem_cons_of_mem _ hy) hpy)

/-- Helper: erasing the first `p`-match from a duplicate-free list whose only
`p`-satisfier and only `q`-satisfier is `e` leaves no `q`-satisfier. -/
theorem eraseP_filter_nil {α : Type} {p q : α → Bool} {e : α} :
    ∀ {l : List α}, l.Nodup → e ∈ l → p e = true →
      (∀ x ∈ l, p x = true → x = e) → (∀ x ∈ l, q x = true → x = e) →
      (l.eraseP p).filter q = [] := by
  intro l
  induction l with
  | nil => intro _ h; cases h
  | cons x xs ih =>
    intro hnd hmem hpe hpu hqu
    rcases List.nodup_cons.mp hnd with ⟨hxnotin, hndxs⟩
    by_cases hx : p x = true
    · have hxe : x = e := hpu x (List.mem_cons_self x xs) hx
      rw [List.eraseP_cons_of_pos hx, List.filter_eq_nil_iff]
      intro a ha hqa
      have hae : a = e := hqu a (List.mem_cons_of_mem _ ha) hqa
      rw [hae, ← hxe] at ha
      exact hxnotin ha
    · have hqx : ¬(q x = true) := by
        intro hq
        have hxe : x = e := hqu x (List.mem_cons_self x xs) hq
        rw [hxe] at hx
        exact hx hpe
      have hex : e ∈ xs := by
        rcases List.mem_cons.mp hmem with h | h
        · exact absurd hpe (by rw [h]; exact hx)
        · exact h
      rw [List.eraseP_cons_of_neg hx, List.filter_cons_of_neg hqx]
      exact ih hndxs hex hpe
        (fun y hy hpy => hpu y (List.mem_cons_of_mem _ hy) hpy)
        (fun y hy hqy => hqu y (List.mem_cons_of_mem _ hy) hqy)

/-- C1: admitting a second connection under an identity already present in a
registry (lobby or hall, each with the §3 uniqueness invariants and the new
connection fresh) yields exactly one forced close — of the old connection,
with code 4500 — exactly one surviving entry for that identity — the new
connection — and zero leave notifications (no sessionLeave, no
participant-left send) in the trace of the admission. -/
theorem secondAdmission_replaces_silently
    (stL stH : GState) (wsL wsH : Nat) (eL : LEntry) (eH : HEntry) (roleNew : Role)
    (hLnd : stL.lobby.Nodup) (hLmem : eL ∈ stL.lobby)
    (hLid : ∀ x ∈ stL.lobby, x.pid = eL.pid → x.sid = eL.sid → x = eL)
    (hLws : ∀ x ∈ stL.lobby, x.ws = eL.ws → x = eL)
    (hLfresh : ∀ x ∈ stL.lobby, x.ws ≠ wsL)
    (hHnd : stH.hall.Nodup) (hHmem : eH ∈ stH.hall)
    (hHid : ∀ x ∈ stH.hall, x.pid = eH.pid → x.sid = eH.sid → x = eH)
    (hHws : ∀ x ∈ stH.hall, x.ws = eH.ws → x = eH)
    (hHfresh : ∀ x ∈ stH.hall, x.ws ≠ wsH) :
    (addToLobby stL wsL eL.pid eL.sid).2 = [Effect.closeWs eL.ws 4500] ∧
    (addToLobby stL wsL eL.pid eL.sid).1.lobby.filter
        (fun x => x.pid == eL.pid && x.sid == eL.sid) = [⟨wsL, eL.pid, eL.sid⟩] ∧
    (addToLobby stL wsL eL.pid eL.sid).2.filter isLeaveNotice = [] ∧
    (addToHall stH wsH eH.pid eH.sid roleNew).2 = [Effect.closeWs eH.ws 4500] ∧
    (addToHall stH wsH eH.pid eH.sid roleNew).1.hall.filter
        (fun x => x.pid == eH.pid && x.sid == eH.sid) = [⟨wsH, eH.pid, eH.sid, roleNew⟩] ∧
    (addToHall stH wsH eH.pid eH.sid roleNew).2.filter isLeaveNotice = [] := by
  have hgetL : Lobby.get (some wsL) (some eL.pid) (some eL.sid) stL.lobby = some eL := by
    apply find_of_unique hLmem
    · simp [lmatch]
    · intro x hx hpx
      simp only [lmatch, Bool.or_eq_true, Bool.and_eq_true, beq_iff_eq] at hpx
      rcases hpx with h | h
      · exact absurd h (hLfresh x hx)
      · exact hLid x hx h.1 h.2
  have hgetH : Hall.get (some wsH) (some eH.pid) (some eH.sid) (some roleNew) stH.hall
      = some eH := by
    apply find_of_unique hHmem
    · simp [hmatch]
    · intro x hx hpx
      simp only [hmatch, Bool.or_eq_true, Bool.and_eq_true, beq_iff_eq] at hpx
      rcases hpx with h | h
      · exact absurd h (hHfresh x hx)
      · exact hHid x hx h.1 h.2
  have herasedL : (stL.lobby.eraseP
      (lmatch (some eL.ws) (some eL.pid) (some eL.sid))).filter
      (fun x => x.pid == eL.pid && x.sid == eL.sid) = [] := by
    apply eraseP_filter_nil hLnd hLmem
    · simp [lmatch]
    · intro x hx hpx
      simp only [lmatch, Bool.or_eq_true, Bool.and_eq_true, beq_iff_eq] at hpx
      rcases hpx with h | h
      · exact hLws x hx h
      · exact hLid x hx h.1 h.2
    · intro x hx hqx
      simp only [Bool.and_eq_true, beq_iff_eq] at hqx
      exact hLid x hx hqx.1 hqx.2
  have herasedH : (stH.hall.eraseP
      (hmatch (some eH.ws) (some eH.pid) (some eH.sid))).filter
      (fun x => x.pid == eH.pid && x.sid == eH.sid) = [] := by
    apply eraseP_filter_nil hHnd hHmem
    · simp [hmatch]
    · intro x hx hpx
      simp only [hmatch, Bool.or_eq_true, Bool.and_eq_true, beq_iff_eq] at hpx
      rcases hpx with h | h
      · exact hHws x hx h
      · exact hHid x hx h.1 h.2
    · intro x hx hqx
      simp only [Bool.and_eq_true, beq_iff_eq] at hqx
      exact hHid x hx hqx.1 hqx.2
  refine ⟨?_, ?_, ?_, ?_, ?_, ?_⟩
  · simp [addToLobby, hgetL, removeFromLobby, rejectConnection]
  · simp [addToLobby, hgetL, removeFromLobby, rejectConnection, clearConnection,
      Lobby.add, Lobby.remove, List.filter_append, herasedL]
  · simp [addToLobby, hgetL, removeFromLobby, rejectConnection, isLeaveNotice,
      isSessionLeave, isPartLeft]
  · simp [addToHall, hgetH, removeFromHall, rejectConnection]
  · simp [addToHall, hgetH, removeFromHall, rejectConnection, clearConnection,
      Hall.add, Hall.remove, List.filter_append, herasedH]
  · simp [addToHall, hgetH, removeFromHall, rejectConnection, isLeaveNotice,
      isSessionLeave, isPartLeft]

/-- Witness for C1: a lobby holding `(p1, s1)` on connection 2 re-admitted on
connection 3, and a hall holding `(p2, s2)` on connection 5 re-admitted on
connection 6. -/
theorem secondAdmission_replaces_silently_witness :
    (addToLobby ⟨[⟨2, "p1", "s1"⟩], [], [(2, CloseH.lobbyH "p1" "s1")], []⟩
        3 "p1" "s1").2 = [Effect.closeWs 2 4500] ∧
    (addToLobby ⟨[⟨2, "p1", "s1"⟩], [], [(2, CloseH.lobbyH "p1" "s1")], []⟩
        3 "p1" "s1").1.lobby.filter
        (fun x => x.pid == "p1" && x.sid == "s1") = [⟨3, "p1", "s1"⟩] ∧
    (addToLobby ⟨[⟨2, "p1", "s1"⟩], [], [(2, CloseH.lobbyH "p1" "s1")], []⟩
        3 "p1" "s1").2.filter isLeaveNotice = [] ∧
    (addToHall ⟨[], [⟨5, "p2", "s2", Role.player⟩], [(5, CloseH.hallH "p2" "s2")], [5]⟩
        6 "p2" "s2" Role.player).2 = [Effect.closeWs 5 4500] ∧
    (addToHall ⟨[], [⟨5, "p2", "s2", Role.player⟩], [(5, CloseH.hallH "p2" "s2")], [5]⟩
        6 "p2" "s2" Role.player).1.hall.filter
        (fun x => x.pid == "p2" && x.sid == "s2") = [⟨6, "p2", "s2", Role.player⟩] ∧
    (addToHall ⟨[], [⟨5, "p2", "s2", Role.player⟩], [(5, CloseH.hallH "p2" "s2")], [5]⟩
        6 "p2" "s2" Role.player).2.filter isLeaveNotice = [] :=
  secondAdmission_replaces_silently
    ⟨[⟨2, "p1", "s1"⟩], [], [(2, CloseH.lobbyH "p1" "s1")], []⟩
    ⟨[], [⟨5, "p2", "s2", Role.player⟩], [(5, CloseH.hallH "p2" "s2")], [5]⟩
    3 6 ⟨2, "p1", "s1"⟩ ⟨5, "p2", "s2", Role.player⟩ Role.player
    (by decide) (by decide) (by decide) (by decide) (by decide)
    (by decide) (by decide) (by decide) (by decide) (by decide)

/-- Helper: the trace of `addToHall` holds at most a forced close, never a
participant-joined send. -/
theorem addToHall_noJoinedSend (st : GState) (ws : Nat) (pid sid : String)
    (role : Role) :
    (addToHall st ws pid sid role).2.filter isPartJoined = [] := by
  rcases h : Hall.get (some ws) (some pid) (some sid) (some role) st.hall with _ | p <;>
    simp [addToHall, h, removeFromHall, rejectConnection, isPartJoined]

/-- Helper: a game-master broadcast of a participant-joined message consists of
participant-joined sends only. -/
theorem sendToGameMasters_joined_filter (st : GState) (sid a b c : String) :
    (sendToGameMasters st sid (UiMsg.participantJoined a b c)).filter isPartJoined =
      sendToGameMasters st sid (UiMsg.participantJoined a b c) := by
  rw [List.filter_eq_self]
  intro x hx
  simp only [sendToGameMasters, List.mem_map] at hx
  obtain ⟨e, _, rfl⟩ := hx
  rfl

/-- C4 counterexample: `LoadResult.resolvedArray []` is a malformed result (the
§4.5 contract requires a sequence of the same length as the request), yet for
the one requested identifier no default profile is substituted
(`getProfiles` keeps the empty array), and the participant-joined broadcast
does not occur (the destructured profile is `undefined` and
`profile.displayName` raises) even though a game-master is present in the
hall to receive it. -/
theorem profileShortArray_blocksJoinBroadcast :
    getProfiles ["p1"] (LoadResult.resolvedArray []) ≠
      List.replicate (List.length ["p1"]) DEFAULT_PROFILE ∧
    Hall.getMasters "s1" (participantIdentified
      ⟨[⟨2, "p1", "s1"⟩], [⟨1, "gm1", "s1", Role.gameMaster⟩],
       [(2, CloseH.lobbyH "p1" "s1")], []⟩ "p1" "s1" Role.player
      (LoadResult.resolvedArray [])).1.hall ≠ [] ∧
    (participantIdentified ⟨[⟨2, "p1", "s1"⟩], [⟨1, "gm1", "s1", Role.gameMaster⟩],
       [(2, CloseH.lobbyH "p1" "s1")], []⟩ "p1" "s1" Role.player
      (LoadResult.resolvedArray [])).2.filter isPartJoined = [] := by
  decide

/-- C4 amended: if the profile-loading collaborator rejects or resolves with a
non-array value, a default profile with the fixed fallback display name is
substituted for every requested identifier, the failure is not propagated, and
the participant-joined broadcast to the game-masters of the session still goes
out with the default display name (one send per game-master of the final hall
state). -/
theorem profileFailure_defaultsAndBroadcast (st : GState) (pid sid : String)
    (role : Role) (r : LoadResult) (ids : List String) (e : LEntry)
    (hl : Lobby.get none (some pid) (some sid) st.lobby = some e)
    (hr : r = LoadResult.rejected ∨ r = LoadResult.resolvedNonArray) :
    getProfiles ids r = List.replicate ids.length DEFAULT_PROFILE ∧
    (participantIdentified st pid sid role r).2.filter isPartJoined =
      (Hall.getMasters sid (participantIdentified st pid sid role r).1.hall).map
        (fun x => Effect.wsSend x.ws
          (UiMsg.participantJoined sid pid DEFAULT_PROFILE.displayName)) := by
  have main : ∀ r0 : LoadResult, getProfiles [pid] r0 = [DEFAULT_PROFILE] →
      (participantIdentified st pid sid role r0).2.filter isPartJoined =
      (Hall.getMasters sid (participantIdentified st pid sid role r0).1.hall).map
        (fun x => Effect.wsSend x.ws
          (UiMsg.participantJoined sid pid DEFAULT_PROFILE.displayName)) := by
    intro r0 hp
    simp only [participantIdentified, hl, hp, List.filter_append,
      addToHall_noJoinedSend, sendToGameMasters_joined_filter, List.nil_append]
    rfl
  rcases hr with rfl | rfl
  · exact ⟨rfl, main LoadResult.rejected rfl⟩
  · exact ⟨rfl, main LoadResult.resolvedNonArray rfl⟩

/-- Witness for the amended C4: collaborator rejection during the promotion of
`(p1, s1)`; the joined broadcast reaches the game-master with the default
display name. -/
theorem profileFailure_defaultsAndBroadcast_witness :
    getProfiles ["a", "b"] LoadResult.rejected =
      List.replicate (List.length ["a", "b"]) DEFAULT_PROFILE ∧
    (participantIdentified ⟨[⟨2, "p1", "s1"⟩], [⟨1, "gm1", "s1", Role.gameMaster⟩],
        [(2, CloseH.lobbyH "p1" "s1")], []⟩ "p1" "s1" Role.player
        LoadResult.rejected).2.filter isPartJoined =
      (Hall.getMasters "s1" (participantIdentified
          ⟨[⟨2, "p1", "s1"⟩], [⟨1, "gm1", "s1", Role.gameMaster⟩],
           [(2, CloseH.lobbyH "p1" "s1")], []⟩ "p1" "s1" Role.player
          LoadResult.rejected).1.hall).map
        (fun x => Effect.wsSend x.ws
          (UiMsg.participantJoined "s1" "p1" DEFAULT_PROFILE.displayName)) :=
  profileFailure_defaultsAndBroadcast
    ⟨[⟨2, "p1", "s1"⟩], [⟨1, "gm1", "s1", Role.gameMaster⟩],
     [(2, CloseH.lobbyH "p1" "s1")], []⟩ "p1" "s1" Role.player
    LoadResult.rejected ["a", "b"] ⟨2, "p1", "s1"⟩ (by decide) (Or.inl rfl)

/-- Helper: a map of `wsSend` effects filtered by a classifier that rejects
this message is empty. -/
theorem filter_map_wsSend_nil (l : List HEntry) (m : UiMsg) (pred : Effect → Bool)
    (h : ∀ w, pred (Effect.wsSend w m) = false) :
    (l.map (fun e => Effect.wsSend e.ws m)).filter pred = [] := by
  rw [List.filter_eq_nil_iff]
  intro a ha
  obtain ⟨x, _, rfl⟩ := List.mem_map.mp ha
  simp [h]

/-- Helper: a map of `wsSend` effects filtered by a classifier that accepts
this message is unchanged. -/
theorem filter_map_wsSend_self (l : List HEntry) (m : UiMsg) (pred : Effect → Bool)
    (h : ∀ w, pred (Effect.wsSend w m) = true) :
    (l.map (fun e => Effect.wsSend e.ws m)).filter pred =
      l.map (fun e => Effect.wsSend e.ws m) := by
  rw [List.filter_eq_self]
  intro a ha
  obtain ⟨x, _, rfl⟩ := List.mem_map.mp ha
  simp [h]

/-- Helper: listeners of `w` do not survive `clearConnection`, so a later
filter for `w` finds nothing. -/
theorem filter_after_clear (l : List (Nat × CloseH)) (w : Nat) :
    (l.filter (fun h => !(h.1 == w))).filter (fun h => h.1 == w) = [] := by
  simp [List.filter_filter]

/-- Helper: filtering out the listeners of `w` is idempotent. -/
theorem filter_clear_idem (l : List (Nat × CloseH)) (w : Nat) :
    (l.filter (fun h => !(h.1 == w))).filter (fun h => !(h.1 == w)) =
      l.filter (fun h => !(h.1 == w)) := by
  rw [List.filter_eq_self]
  intro a ha
  exact (List.mem_filter.mp ha).2

/-- C5: promotion of a lobby participant (`participantIdentified`, the handler
of the role-assigned event) followed by the close of that connection yields,
over the combined trace, exactly one coordination-service leave notification —
`sessionLeave(sid, pid)` — and exactly one participant-left broadcast: one
`participantLeft` send per game-master of the session (the hall is back to its
pre-promotion entries when the broadcast goes out). -/
theorem promoteThenClose_singleLeave (st : GState) (pid sid : String) (role : Role)
    (r : LoadResult) (e : LEntry)
    (hl : Lobby.get none (some pid) (some sid) st.lobby = some e)
    (hw : ∀ x ∈ st.hall, x.ws ≠ e.ws)
    (hi : ∀ x ∈ st.hall, ¬(x.pid = pid ∧ x.sid = sid)) :
    ((participantIdentified st pid sid role r).2
      ++ (closeEvent (participantIdentified st pid sid role r).1 e.ws).2).filter
        isSessionLeave = [Effect.phoenixSend (Msg.sessionLeave sid pid)] ∧
    ((participantIdentified st pid sid role r).2
      ++ (closeEvent (participantIdentified st pid sid role r).1 e.ws).2).filter
        isPartLeft =
      (Hall.getMasters sid st.hall).map
        (fun x => Effect.wsSend x.ws (UiMsg.participantLeft sid pid)) := by
  have hl' : st.lobby.find? (lmatch none (some pid) (some sid)) = some e := hl
  have hpe := List.find?_some hl'
  simp only [lmatch, Bool.false_or, Bool.and_eq_true, beq_iff_eq] at hpe
  obtain ⟨hp1, hp2⟩ := hpe
  subst hp1
  subst hp2
  have hget : Hall.get (some e.ws) (some e.pid) (some e.sid) (some role) st.hall
      = none := by
    apply List.find?_eq_none.mpr
    intro x hx hpx
    simp only [hmatch, Bool.or_eq_true, Bool.and_eq_true, beq_iff_eq] at hpx
    rcases hpx with h | h
    · exact hw x hx h
    · exact hi x hx h
  have hPIst : (participantIdentified st e.pid e.sid role r).1 =
      ⟨st.lobby.eraseP (lmatch (some e.ws) (some e.pid) (some e.sid)),
       st.hall ++ [⟨e.ws, e.pid, e.sid, role⟩],
       (st.closeHs.filter (fun h => !(h.1 == e.ws)))
         ++ [(e.ws, CloseH.hallH e.pid e.sid)],
       (st.msgHs.filter (fun w => !(w == e.ws))) ++ [e.ws]⟩ := by
    simp only [participantIdentified, hl, addToHall, hget, clearConnection,
      Lobby.remove, Hall.add]
  have hnp : ∀ b ∈ st.hall, ¬(hmatch (some e.ws) none none b = true) := by
    intro b hb hpb
    simp only [hmatch, Bool.or_false, beq_iff_eq] at hpb
    exact hw b hb hpb
  have herase : (st.hall ++ [HEntry.mk e.ws e.pid e.sid role]).eraseP
      (hmatch (some e.ws) none none) = st.hall := by
    rw [List.eraseP_append_right _ hnp]
    simp [hmatch, List.eraseP_cons]
  have hCE : (closeEvent (participantIdentified st e.pid e.sid role r).1 e.ws).2 =
      [Effect.closeWs e.ws 4500, Effect.phoenixSend (Msg.sessionLeave e.sid e.pid)]
        ++ (Hall.getMasters e.sid st.hall).map
          (fun x => Effect.wsSend x.ws (UiMsg.participantLeft e.sid e.pid)) := by
    rw [hPIst]
    simp [closeEvent, filter_after_clear, filter_clear_idem, runCloseH,
      removeFromHall, rejectConnection, clearConnection, Hall.remove, herase,
      sendToGameMasters]
  have hPI1 : (participantIdentified st e.pid e.sid role r).2.filter
      isSessionLeave = [] := by
    rcases hgp : getProfiles [e.pid] r with _ | ⟨profile, rest⟩
    · simp only [participantIdentified, hl, addToHall, hget, clearConnection,
        Lobby.remove, Hall.add, hgp, List.nil_append]
      rfl
    · simp only [participantIdentified, hl, addToHall, hget, clearConnection,
        Lobby.remove, Hall.add, hgp, List.nil_append, sendToGameMasters]
      exact filter_map_wsSend_nil _ _ isSessionLeave (fun w => rfl)
  have hPI2 : (participantIdentified st e.pid e.sid role r).2.filter
      isPartLeft = [] := by
    rcases hgp : getProfiles [e.pid] r with _ | ⟨profile, rest⟩
    · simp only [participantIdentified, hl, addToHall, hget, clearConnection,
        Lobby.remove, Hall.add, hgp, List.nil_append]
      rfl
    · simp only [participantIdentified, hl, addToHall, hget, clearConnection,
        Lobby.remove, Hall.add, hgp, List.nil_append, sendToGameMasters]
      exact filter_map_wsSend_nil _ _ isPartLeft (fun w => rfl)
  constructor
  · rw [List.filter_append, hPI1, hCE, List.nil_append, List.filter_append]
    rw [filter_map_wsSend_nil _ _ isSessionLeave (fun w => rfl)]
    rfl
  · rw [List.filter_append, hPI2, hCE, List.nil_append, List.filter_append]
    rw [filter_map_wsSend_self _ (UiMsg.participantLeft e.sid e.pid) isPartLeft
      (fun w => rfl)]
    rfl

/-- Witness for C5: participant `(p1, s1)` on connection 2 is promoted to
player while game-master `gm1` is on connection 1; connection 2 then closes. -/
theorem promoteThenClose_singleLeave_witness :
    ((participantIdentified ⟨[⟨2, "p1", "s1"⟩], [⟨1, "gm1", "s1", Role.gameMaster⟩],
        [(2, CloseH.lobbyH "p1" "s1")], []⟩ "p1" "s1" Role.player LoadResult.rejected).2
      ++ (closeEvent (participantIdentified ⟨[⟨2, "p1", "s1"⟩],
          [⟨1, "gm1", "s1", Role.gameMaster⟩], [(2, CloseH.lobbyH "p1" "s1")], []⟩
          "p1" "s1" Role.player LoadResult.rejected).1 2).2).filter isSessionLeave =
      [Effect.phoenixSend (Msg.sessionLeave "s1" "p1")] ∧
    ((participantIdentified ⟨[⟨2, "p1", "s1"⟩], [⟨1, "gm1", "s1", Role.gameMaster⟩],
        [(2, CloseH.lobbyH "p1" "s1")], []⟩ "p1" "s1" Role.player LoadResult.rejected).2
      ++ (closeEvent (participantIdentified ⟨[⟨2, "p1", "s1"⟩],
          [⟨1, "gm1", "s1", Role.gameMaster⟩], [(2, CloseH.lobbyH "p1" "s1")], []⟩
          "p1" "s1" Role.player LoadResult.rejected).1 2).2).filter isPartLeft =
      (Hall.getMasters "s1" [⟨1, "gm1", "s1", Role.gameMaster⟩]).map
        (fun x => Effect.wsSend x.ws (UiMsg.participantLeft "s1" "p1")) :=
  promoteThenClose_singleLeave
    ⟨[⟨2, "p1", "s1"⟩], [⟨1, "gm1", "s1", Role.gameMaster⟩],
     [(2, CloseH.lobbyH "p1" "s1")], []⟩ "p1" "s1" Role.player LoadResult.rejected
    ⟨2, "p1", "s1"⟩ (by decide) (by decide) (by decide)
